import Mathlib

/-!
Shallow embedding of the request/response facades of the `koa-ts` repository
(`Responce` in the response source file, `Request` in the request source file,
plus `getType` from `common.ts`), together with proofs about the claims on
their behaviour.  Machine strings are modelled by `String`, JS numbers fed to
the status setter by `ℚ` (so that non-integers are representable), header maps
by association lists with case-insensitive field matching, and bodies by a
tagged variant as the body setter distinguishes them.
-/

/-! ## Decimal rendering and JS `parseInt`

`String(n)` on a nonnegative integer JS number produces its decimal digits;
the `length` getter reads them back with `parseInt(s, 10)`. -/

/-- The decimal digit character for `d` (for `d ≤ 9`; larger inputs clamp). -/
def digitCh : Nat → Char
  | 0 => '0' | 1 => '1' | 2 => '2' | 3 => '3' | 4 => '4'
  | 5 => '5' | 6 => '6' | 7 => '7' | 8 => '8' | _ => '9'

/-- Numeric value of a digit character. -/
def digitVal (c : Char) : Nat := c.toNat - 48

/-- Fuel-driven most-significant-first decimal digits of `n`. -/
def natToDigitsAux : Nat → Nat → List Char
  | 0, _ => []
  | fuel + 1, n =>
    if n < 10 then [digitCh n]
    else natToDigitsAux fuel (n / 10) ++ [digitCh (n % 10)]

/-- Decimal digits of `n` (fuel `n + 1` always suffices). -/
def natToDigits (n : Nat) : List Char := natToDigitsAux (n + 1) n

/-- Decimal rendering of a nonnegative integer, as JS `String(n)`. -/
def natToStr (n : Nat) : String := ⟨natToDigits n⟩

/-- Decimal rendering of an integer, as JS `String(n)`. -/
def intToStr (n : Int) : String :=
  if n < 0 then "-" ++ natToStr n.natAbs else natToStr n.natAbs

/-- The whitespace characters skipped by JS `parseInt` and matched by `\s`
(ASCII portion; the Unicode space classes are not exercised here). -/
def isJsWhitespace (c : Char) : Bool :=
  c == ' ' || c == '\t' || c == '\n' || c == '\r' || c == '\x0b' || c == '\x0c'

/-- Value of the longest leading run of decimal digits; `none` when there is
no leading digit (JS `NaN`). -/
def leadDigits (cs : List Char) : Option Nat :=
  match cs.takeWhile (fun c => c.isDigit) with
  | [] => none
  | ds => some (ds.foldl (fun a c => 10 * a + digitVal c) 0)

/-- JS `parseInt(s, 10)`: skip leading whitespace, optional sign, then the
longest digit run; `none` models `NaN`. -/
def parseIntJs (s : String) : Option Int :=
  let cs := s.toList.dropWhile isJsWhitespace
  if cs.head? = some '-' then (leadDigits cs.tail).map (fun n => -(n : Int))
  else if cs.head? = some '+' then (leadDigits cs.tail).map (fun n => (n : Int))
  else (leadDigits cs).map (fun n => (n : Int))

/-! ## Small string utilities used by the facades -/

/-- ASCII lowercasing, as JS `toLowerCase` on header field names. -/
def lowerStr (s : String) : String := ⟨s.toList.map Char.toLower⟩

/-- `str.split(";", 1)[0]`: everything before the first `;`. -/
def beforeSemicolon (s : String) : String := ⟨s.toList.takeWhile (fun c => c ≠ ';')⟩

/-- Drop trailing whitespace characters. -/
def dropTrailingWs (cs : List Char) : List Char :=
  (cs.reverse.dropWhile isJsWhitespace).reverse

/-- `str.split(/\s*,\s*/, 1)[0]`: the part before the first comma, with the
whitespace abutting that comma removed; the whole string when there is no
comma. -/
def firstTokenComma (s : String) : String :=
  let pre := s.toList.takeWhile (fun c => c ≠ ',')
  if pre.length = s.toList.length then s else ⟨dropTrailingWs pre⟩

/-- The test `/^\s*</.test(s)`: after leading whitespace, does `s` start
with `<`? -/
def jsLeadingLt (s : String) : Bool :=
  match s.toList.dropWhile isJsWhitespace with
  | c :: _ => c == '<'
  | [] => false

/-! ## Escaping helpers used by `redirect` -/

/-- Uppercase hexadecimal digit. -/
def hexCh : Nat → Char
  | 0 => '0' | 1 => '1' | 2 => '2' | 3 => '3' | 4 => '4'
  | 5 => '5' | 6 => '6' | 7 => '7' | 8 => '8' | 9 => '9'
  | 10 => 'A' | 11 => 'B' | 12 => 'C' | 13 => 'D' | 14 => 'E' | _ => 'F'

/-- Two-digit hexadecimal rendering of a byte. -/
def toHex2 (n : Nat) : String := ⟨[hexCh (n / 16 % 16), hexCh (n % 16)]⟩

/-- Four-digit hexadecimal rendering. -/
def toHex4 (n : Nat) : String :=
  ⟨[hexCh (n / 4096 % 16), hexCh (n / 256 % 16), hexCh (n / 16 % 16), hexCh (n % 16)]⟩

/-- The characters the legacy JS global `escape` leaves untouched
(ECMA-262 B.2.1): ASCII alphanumerics and `@ * _ + - . /`. -/
def isEscapeSafe (c : Char) : Bool :=
  c.isAlpha || c.isDigit || c == '@' || c == '*' || c == '_' || c == '+' ||
  c == '-' || c == '.' || c == '/'

/-- The legacy JS global `escape` applied to one character: safe characters
pass through, code units below 256 become `%XX`, the rest `%uXXXX`
(code points above `0xFFFF` would be split on surrogates; not exercised). -/
def escapeJsChar (c : Char) : String :=
  if isEscapeSafe c then String.singleton c
  else if c.toNat < 256 then "%" ++ toHex2 c.toNat
  else "%u" ++ toHex4 c.toNat

/-- The legacy JS global `escape`, which the `redirect` body template applies
to the target URL. -/
def escapeJs (s : String) : String :=
  (s.toList.map escapeJsChar).foldl (fun a b => a ++ b) ""

/-- UTF-8 bytes of one character, computed arithmetically. -/
def utf8BytesOf (c : Char) : List Nat :=
  let n := c.toNat
  if n < 128 then [n]
  else if n < 2048 then [192 + n / 64, 128 + n % 64]
  else if n < 65536 then [224 + n / 4096, 128 + n / 64 % 64, 128 + n % 64]
  else [240 + n / 262144, 128 + n / 4096 % 64, 128 + n / 64 % 64, 128 + n % 64]

/-- Characters a URL may already contain unencoded (RFC 3986 unreserved and
reserved characters plus `%`). -/
def isUrlSafe (c : Char) : Bool :=
  c.isAlpha || c.isDigit ||
  c == '-' || c == '.' || c == '_' || c == '~' || c == ':' || c == '/' ||
  c == '?' || c == '#' || c == '[' || c == ']' || c == '@' || c == '!' ||
  c == '$' || c == '&' || c == '\'' || c == '(' || c == ')' || c == '*' ||
  c == '+' || c == ',' || c == ';' || c == '=' || c == '%'

/-- Modelled from the spec: the Location target is "percent-encoded" before
being stored (§4.2); the `encodeUrl` helper used at the `set("Location", ...)`
call is not part of this repository's sources.  URL-safe characters are left
unchanged, others are percent-encoded byte-wise. -/
def encodeUrl (s : String) : String :=
  (s.toList.map (fun c =>
      if isUrlSafe c then String.singleton c
      else ((utf8BytesOf c).map (fun b => "%" ++ toHex2 b)).foldl
        (fun a b => a ++ b) "")).foldl (fun a b => a ++ b) ""

/-! ## Tables of the external `statuses` and `mime-types` packages -/

/-- The `statuses.empty` table of the external `statuses` package: status
codes whose semantics forbid a body. -/
def statusesEmpty (c : Nat) : Bool := c == 204 || c == 205 || c == 304

/-- The `statuses.redirect` table of the external `statuses` package. -/
def statusesRedirect (c : Nat) : Bool :=
  c == 300 || c == 301 || c == 302 || c == 303 || c == 305 || c == 307 || c == 308

/-- The `statuses[code]` reason-phrase table of the external `statuses`
package (the entries the claims can reach; unknown codes give `none`, as the
package yields `undefined`). -/
def statusesMessage : Nat → Option String
  | 200 => some "OK"
  | 201 => some "Created"
  | 204 => some "No Content"
  | 205 => some "Reset Content"
  | 301 => some "Moved Permanently"
  | 302 => some "Found"
  | 303 => some "See Other"
  | 304 => some "Not Modified"
  | 307 => some "Temporary Redirect"
  | 308 => some "Permanent Redirect"
  | 404 => some "Not Found"
  | 500 => some "Internal Server Error"
  | _ => none

/-- Modelled from the spec: the MIME lookup service (§6) is an external
collaborator (`mime-types.contentType`); only the type hints the repository's
code actually passes are tabulated.  Full types that already carry a charset
come back unchanged; extension hints resolve to their content type with a
default charset. -/
def mimeContentType : String → Option String
  | "html" => some "text/html; charset=utf-8"
  | "text" => some "text/plain; charset=utf-8"
  | "bin" => some "application/octet-stream"
  | "json" => some "application/json; charset=utf-8"
  | "text/html; charset=utf-8" => some "text/html; charset=utf-8"
  | "text/plain; charset=utf-8" => some "text/plain; charset=utf-8"
  | _ => none

/-- `getType` from `common.ts`: an LRU-cached front for
`mimeTypes.contentType`; the cache is semantically transparent, so the model
is the lookup itself. -/
def getType (t : String) : Option String := mimeContentType t

/-! ## Body values -/

/-- Structured (JSON-serializable) values that fall through to the `json`
branch of the body setter. -/
inductive JsonLite where
  | jbool (b : Bool)
  | jnum (n : Int)
  | jarr
  | jobj
  deriving DecidableEq

/-- A response body: `undef` is JS `undefined` (body never assigned),
`null` the explicit `null`, then strings, byte buffers, streams (identified
by an id standing for object identity) and structured values. -/
inductive BodyVal where
  | undef
  | null
  | str (s : String)
  | buf (bytes : List Nat)
  | stream (id : Nat)
  | json (v : JsonLite)
  deriving DecidableEq

/-- `val == null` in JS: only `null` and `undefined`. -/
def isNullish : BodyVal → Bool
  | .undef => true
  | .null => true
  | _ => false

/-- JS truthiness of a body value (`this.body && ...`). -/
def jsTruthy : BodyVal → Bool
  | .undef => false
  | .null => false
  | .str s => s ≠ ""
  | .buf _ => true
  | .stream _ => true
  | .json (.jbool b) => b
  | .json (.jnum n) => n ≠ 0
  | .json .jarr => true
  | .json .jobj => true

/-- `JSON.stringify` on the structured values of the model (string members do
not occur in `JsonLite`, so no string escaping arises). -/
def jsonLiteStr : JsonLite → String
  | .jbool true => "true"
  | .jbool false => "false"
  | .jnum n => intToStr n
  | .jarr => "[]"
  | .jobj => "\x7b\x7d"

/-! ## The outgoing message and the `Responce` facade

Node's `ServerResponse` stores the status code (default 200), an optional
reason phrase, the outgoing headers and the `headersSent` flag; the facade
adds `_explicitStatus`, `_explicitNullBody` and `_body`.  As the facade holds
its `ServerResponse` by reference throughout, the two are flattened into one
record. -/

/-- The incoming `IncomingMessage` as far as the facades read it: its headers
(keys already lowercased by Node's parser), HTTP major version, and the
socket/connection facts used by `protocol`. -/
structure IncMsg where
  headers : List (String × String) := []
  httpVersionMajor : Nat := 1
  socketEncrypted : Bool := false
  remoteAddress : String := ""
  deriving DecidableEq

/-- The `Responce` facade together with its underlying outgoing message. -/
structure Responce where
  statusCode : Nat := 200
  statusMessage : Option String := none
  headers : List (String × String) := []
  headersSent : Bool := false
  explicitStatus : Bool := false
  explicitNullBody : Bool := false
  body : BodyVal := .undef
  deriving DecidableEq

/-- Case-insensitive header-field match, as Node's header table. -/
def fieldEq (a b : String) : Bool := lowerStr a == lowerStr b

/-- `res.getHeader(field)`: case-insensitive lookup. -/
def getHeader (r : Responce) (field : String) : Option String :=
  (r.headers.find? (fun p => fieldEq p.1 field)).map (fun p => p.2)

/-- `res.hasHeader(field)` / the facade's `has`. -/
def hasHeader (r : Responce) (field : String) : Bool :=
  (getHeader r field).isSome

/-- `res.setHeader(field, val)`: replaces any same-named header. -/
def setHeaderRaw (hs : List (String × String)) (field val : String) :
    List (String × String) :=
  hs.filter (fun p => !(fieldEq p.1 field)) ++ [(field, val)]

/-- The facade's `set(field, val)` (two-argument, string form; a non-string
value is coerced with `String(...)` by the callers below): a silent no-op
once headers are sent. -/
def setOp (r : Responce) (field val : String) : Responce :=
  if r.headersSent then r
  else { r with headers := setHeaderRaw r.headers field val }

/-- The facade's `remove(field)`: a silent no-op once headers are sent. -/
def removeOp (r : Responce) (field : String) : Responce :=
  if r.headersSent then r
  else { r with headers := r.headers.filter (fun p => !(fieldEq p.1 field)) }

/-- Modelled from the spec: the external `vary` library merges `field` into
the `Vary` header — set it when absent, leave the header alone when it
already holds `*` or the field (case-insensitively), append otherwise
(§4.1). -/
def varyMerge (r : Responce) (field : String) : Responce :=
  match getHeader r "Vary" with
  | none => setOp r "Vary" field
  | some v =>
    let toks := ((v.splitOn ",").map (fun t => lowerStr ⟨dropTrailingWs
      (t.toList.dropWhile isJsWhitespace)⟩))
    if toks.contains "*" || toks.contains (lowerStr field) then r
    else setOp r "Vary" (v ++ ", " ++ field)

/-- The facade's `vary(field)`: a silent no-op once headers are sent. -/
def varyOp (r : Responce) (field : String) : Responce :=
  if r.headersSent then r
  else varyMerge r field

/-! ## Type and length accessors of the facade -/

/-- The `type` getter: the Content-Type header void of parameters
(`type.split(";", 1)[0]`), `""` when absent or empty. -/
def typeGet (r : Responce) : String :=
  match getHeader r "Content-Type" with
  | none => ""
  | some t => if t == "" then "" else beforeSemicolon t

/-- The `type` setter: look the hint up through `getType`; set Content-Type
on success, remove it when the lookup fails. -/
def setTypeOp (r : Responce) (t : String) : Responce :=
  match getType t with
  | some mt => setOp r "Content-Type" mt
  | none => removeOp r "Content-Type"

/-- The `length` setter: set Content-Length (the number is coerced to a
string by `set`) unless a Transfer-Encoding header is present. -/
def setLength (r : Responce) (n : Nat) : Responce :=
  if !(hasHeader r "Transfer-Encoding") then setOp r "Content-Length" (natToStr n)
  else r

/-- The `length` getter: parse the Content-Length header when present
(`parseInt(..., 10) || 0`); otherwise derive it from the body, with
`undefined` (`none`) for falsy and streaming bodies. -/
def lengthGet (r : Responce) : Option Int :=
  if hasHeader r "Content-Length" then
    some ((parseIntJs ((getHeader r "Content-Length").getD "")).getD 0)
  else if !(jsTruthy r.body) then none
  else
    match r.body with
    | .str s => some (s.utf8ByteSize : Int)
    | .buf bytes => some (bytes.length : Int)
    | .stream _ => none
    | other => some ((jsonLiteStr (match other with
        | .json v => v
        | _ => .jobj)).utf8ByteSize : Int)

/-! ## The status and body setters -/

/-- Lines 56–60 of the status setter, after its guards: record the explicit
status, store the code and (below HTTP/2) the reason phrase. -/
def statusAssignCore (req : IncMsg) (r : Responce) (c : Nat) : Responce :=
  let r1 : Responce := { r with explicitStatus := true, statusCode := c }
  if req.httpVersionMajor < 2 then { r1 with statusMessage := statusesMessage c }
  else r1

/-- `this.status = c` as invoked from inside the body setter with the literal
codes 200 and 204: the `headersSent` guard applies and the assertions pass;
the body-clearing step (`if (this.body && statuses.empty[code])`) cannot fire
at those call sites — code 204 is only reached right after the body became
nullish, and `statuses.empty[200]` is false — so it is omitted here. -/
def statusAssignNoClear (req : IncMsg) (r : Responce) (c : Nat) : Responce :=
  if r.headersSent then r else statusAssignCore req r c

/-- The tail of the nullish branch of the body setter: record an explicit
null body (for `val === null` only) and remove the Content-Type,
Content-Length and Transfer-Encoding headers. -/
def finishNullBranch (r : Responce) (val : BodyVal) : Responce :=
  let r1 := if val = .null then { r with explicitNullBody := true } else r
  removeOp (removeOp (removeOp r1 "Content-Type") "Content-Length")
    "Transfer-Encoding"

/-- The body setter (`set body(val)`).  Stream bodies: the `onFinish`/
`destroy` finalizer and the `error`-event hook are transport side effects
with no effect on the modelled state; the header effects are kept. -/
def setBody (req : IncMsg) (r : Responce) (val : BodyVal) : Responce :=
  let original := r.body
  let r := { r with body := val }
  -- no content
  if isNullish val then
    if !(statusesEmpty r.statusCode) then
      if typeGet r == "application/json" then { r with body := .str "null" }
      else finishNullBranch (statusAssignNoClear req r 204) val
    else finishNullBranch r val
  else
    -- set the status
    let r := if !r.explicitStatus then statusAssignNoClear req r 200 else r
    -- set the content-type only if not yet set
    let setT := !(hasHeader r "Content-Type")
    match val with
    | .str s =>
      let r := if setT then setTypeOp r (if jsLeadingLt s then "html" else "text")
        else r
      setLength r s.utf8ByteSize
    | .buf bytes =>
      let r := if setT then setTypeOp r "bin" else r
      setLength r bytes.length
    | .stream i =>
      let r := if original ≠ .stream i ∧ !(isNullish original) then
          removeOp r "Content-Length"
        else r
      if setT then setTypeOp r "bin" else r
    | _ =>
      -- json
      let r := removeOp r "Content-Length"
      setTypeOp r "json"

/-- The status setter (`set status(code)`): silent no-op once headers are
sent, then the two assertions (integer, within [100, 999]) raised as errors,
then the assignment, then the body-clearing interaction with the no-body
family.  The JS number is modelled by a rational so that non-integers are
representable. -/
def setStatus (req : IncMsg) (r : Responce) (code : ℚ) : Except String Responce :=
  if r.headersSent then .ok r
  else if ¬(code.den = 1) then .error "status code must be a number"
  else if ¬(100 ≤ code ∧ code ≤ 999) then .error "invalid status code"
  else
    let c := code.num.toNat
    let r1 := statusAssignCore req r c
    if jsTruthy r1.body ∧ statusesEmpty c then .ok (setBody req r1 .null)
    else .ok r1

/-! ## The `Request` facade (host, protocol, origin, URL memoization) -/

/-- The application configuration the request facade reads. -/
structure AppCfg where
  proxy : Bool := false
  subdomainOffset : Nat := 2
  proxyIpHeader : String := "X-Forwarded-For"
  maxIpsCount : Nat := 0
  deriving DecidableEq

/-- A WHATWG `URL` object, opaque to the facade beyond its being a parsed
value. -/
structure UrlObj where
  href : String
  deriving DecidableEq

/-- What the `URL` getter memoizes: a parsed URL, or the
`Object.create(null)` placeholder stored when parsing failed. -/
inductive MemoURL where
  | url (u : UrlObj)
  | placeholder
  deriving DecidableEq

/-- The `Request` facade over an incoming message. -/
structure Request where
  req : IncMsg
  app : AppCfg := {}
  originalUrl : String := ""
  memoizedURL : Option MemoURL := none
  deriving DecidableEq

/-- Exact lookup in the (lowercase-keyed) incoming header table. -/
def reqHeaderLookup (hs : List (String × String)) (k : String) : String :=
  ((hs.find? (fun p => p.1 == k)).map (fun p => p.2)).getD ""

/-- The request's `get(field)`: lowercase the field, special-case
`referer`/`referrer` (`headers.referrer || headers.referer || ""`), otherwise
a plain lookup; absent headers read as `""`. -/
def requestGet (r : Request) (field : String) : String :=
  let f := lowerStr field
  if f == "referer" || f == "referrer" then
    let a := reqHeaderLookup r.req.headers "referrer"
    if a ≠ "" then a else reqHeaderLookup r.req.headers "referer"
  else reqHeaderLookup r.req.headers f

/-- The `host` getter: prefer `X-Forwarded-Host` behind a proxy, else the
HTTP/2 `:authority`, else `Host`; first comma-separated token. -/
def requestHost (r : Request) : String :=
  let h0 := if r.app.proxy then requestGet r "X-Forwarded-Host" else ""
  let h1 :=
    if h0 == "" then
      let h := if r.req.httpVersionMajor ≥ 2 then requestGet r ":authority" else ""
      if h == "" then requestGet r "Host" else h
    else h0
  if h1 == "" then "" else firstTokenComma h1

/-- The `protocol` getter. -/
def requestProtocol (r : Request) : String :=
  if r.req.socketEncrypted then "https"
  else if !r.app.proxy then "http"
  else
    let proto := requestGet r "X-Forwarded-Proto"
    if proto ≠ "" then firstTokenComma proto else "http"

/-- The `origin` getter: `` `${this.protocol}://${this.host}` ``. -/
def requestOrigin (r : Request) : String :=
  requestProtocol r ++ "://" ++ requestHost r

/-- The `URL` getter, parameterized by the external WHATWG `URL` constructor
(`newURL`), whose failure is an exception (`Except.error`).  Returns the read
value together with the facade afterwards: on first access the result of
parsing `origin + originalUrl` is memoized — the `Object.create(null)`
placeholder when the constructor throws — and later accesses return the memo
unchanged.  (`this.originalUrl || ""` is the identity here since the model's
field is a total string.) -/
def urlGet (newURL : String → Except String UrlObj) (r : Request) :
    MemoURL × Request :=
  match r.memoizedURL with
  | some m => (m, r)
  | none =>
    let m := match newURL (requestOrigin r ++ r.originalUrl) with
      | .ok u => MemoURL.url u
      | .error _ => MemoURL.placeholder
    (m, { r with memoizedURL := some m })

/-! ## The context and `redirect` -/

/-- The per-call context as `redirect` uses it: the request facade and the
outcome of the black-box content negotiation for `accepts("html")`. -/
structure Ctx where
  request : Request
  acceptsHtml : Bool
  deriving DecidableEq

/-- Modelled from the spec: the Context delegates `get` to the RequestFacade
(the context source file is not among the provided sources; §2 "delegated
shorthand accessors"). -/
def ctxGet (c : Ctx) (field : String) : String := requestGet c.request field

/-- `ctx.accepts("html")` truthiness: the black-box negotiation service's
verdict carried by the context model. -/
def ctxAcceptsHtml (c : Ctx) : Bool := c.acceptsHtml

/-- `redirect(url, alt)`.  The inner `this.status = 302` assignment uses
`statusAssignNoClear`: `statuses.empty[302]` is false, so its body-clearing
step cannot fire. -/
def redirect (ctx : Ctx) (req : IncMsg) (r : Responce) (url alt : String) :
    Responce :=
  -- location
  let url :=
    if url == "back" then
      let ref := ctxGet ctx "Referrer"
      if ref ≠ "" then ref else if alt ≠ "" then alt else "/"
    else url
  let r := setOp r "Location" (encodeUrl url)
  -- status
  let r := if !(statusesRedirect r.statusCode) then statusAssignNoClear req r 302
    else r
  -- html
  if ctxAcceptsHtml ctx then
    let url := escapeJs url
    let r := setTypeOp r "text/html; charset=utf-8"
    setBody req r (.str ("Redirecting to <a href=\"" ++ url ++ "\">" ++ url
      ++ "</a>."))
  else
    -- text
    let r := setTypeOp r "text/plain; charset=utf-8"
    setBody req r (.str ("Redirecting to " ++ url ++ "."))

/-! ## Fixtures and instances used by the statements below -/

deriving instance DecidableEq for Except

/-- A plain HTTP/1.1 incoming message. -/
def plainReq : IncMsg := {}

/-! ## Helper lemmas: association-list header algebra -/

theorem find?_filter_of_imp {α} (p q : α → Bool)
    (h : ∀ x, p x = true → q x = true) :
    ∀ l : List α, (l.filter q).find? p = l.find? p := by
  intro l
  induction l with
  | nil => rfl
  | cons a l ih =>
    cases hq : q a with
    | true =>
      cases hp : p a with
      | true => simp [List.filter_cons, hq, List.find?_cons, hp]
      | false => simp [List.filter_cons, hq, List.find?_cons, hp, ih]
    | false =>
      have hp : p a = false := by
        cases hpa : p a
        · rfl
        · exact absurd (h a hpa) (by simp [hq])
      simp [List.filter_cons, hq, List.find?_cons, hp, ih]

theorem find?_none_filter {α} (p q : α → Bool) :
    ∀ l : List α, l.find? p = none → (l.filter q).find? p = none := by
  intro l h
  rw [List.find?_eq_none] at h ⊢
  intro x hx
  exact h x (List.mem_filter.mp hx).1

theorem fieldEq_refl (f : String) : fieldEq f f = true := by
  simp [fieldEq]

theorem fieldEq_symm_false {f g : String} (h : fieldEq f g = false) :
    fieldEq g f = false := by
  simp only [fieldEq, beq_eq_false_iff_ne, ne_eq] at h ⊢
  exact fun e => h e.symm

/-- `set` on an unsent response: the set field reads back as the new value. -/
theorem getHeader_setOp_self (r : Responce) (f v : String)
    (h : r.headersSent = false) : getHeader (setOp r f v) f = some v := by
  unfold setOp getHeader setHeaderRaw
  rw [h]
  simp only [Bool.false_eq_true, if_false, List.find?_append]
  have hnone : (r.headers.filter (fun p => !(fieldEq p.1 f))).find?
      (fun p => fieldEq p.1 f) = none := by
    rw [List.find?_eq_none]
    intro x hx
    have := (List.mem_filter.mp hx).2
    simp only [Bool.not_eq_true'] at this
    simp [this]
  rw [hnone]
  simp [List.find?_cons, fieldEq_refl]

/-- `set` on an unsent response leaves differently-named headers alone. -/
theorem getHeader_setOp_ne (r : Responce) (f v g : String)
    (h : r.headersSent = false) (hne : fieldEq f g = false) :
    getHeader (setOp r f v) g = getHeader r g := by
  unfold setOp getHeader setHeaderRaw
  rw [h]
  simp only [Bool.false_eq_true, if_false, List.find?_append]
  have hfil : (r.headers.filter (fun p => !(fieldEq p.1 f))).find?
      (fun p => fieldEq p.1 g) = r.headers.find? (fun p => fieldEq p.1 g) := by
    apply find?_filter_of_imp
    intro x hx
    simp only [fieldEq, beq_iff_eq] at hx
    simp only [fieldEq, beq_eq_false_iff_ne, ne_eq] at hne
    simp only [Bool.not_eq_true', fieldEq, beq_eq_false_iff_ne, ne_eq, hx]
    exact fun e => hne e.symm
  rw [hfil]
  cases hf : r.headers.find? (fun p => fieldEq p.1 g) with
  | some x => rfl
  | none => simp [List.find?_cons, hne]

/-- `remove` on an unsent response: reading any field afterwards. -/
theorem getHeader_removeOp (r : Responce) (f g : String)
    (h : r.headersSent = false) :
    getHeader (removeOp r f) g =
      if fieldEq g f then none else getHeader r g := by
  unfold removeOp getHeader
  rw [h]
  simp only [Bool.false_eq_true, if_false]
  cases hgf : fieldEq g f with
  | true =>
    simp only [if_true]
    have hnone : (r.headers.filter (fun p => !(fieldEq p.1 f))).find?
        (fun p => fieldEq p.1 g) = none := by
      rw [List.find?_eq_none]
      intro x hx
      have hxf := (List.mem_filter.mp hx).2
      simp only [Bool.not_eq_true'] at hxf
      simp only [fieldEq, beq_eq_false_iff_ne, ne_eq] at hxf
      simp only [fieldEq, beq_iff_eq] at hgf ⊢
      rw [hgf]
      exact hxf
    rw [hnone]
    rfl
  | false =>
    simp only [Bool.false_eq_true, if_false]
    have hfil : (r.headers.filter (fun p => !(fieldEq p.1 f))).find?
        (fun p => fieldEq p.1 g) = r.headers.find? (fun p => fieldEq p.1 g) := by
      apply find?_filter_of_imp
      intro x hx
      simp only [fieldEq, beq_iff_eq] at hx
      simp only [Bool.not_eq_true', fieldEq, beq_eq_false_iff_ne, ne_eq, hx]
      simpa [fieldEq, beq_eq_false_iff_ne, ne_eq] using hgf
    rw [hfil]

/-! ## Which operations touch which fields -/

theorem setOp_fields (r : Responce) (f v : String) :
    (setOp r f v).statusCode = r.statusCode ∧
    (setOp r f v).headersSent = r.headersSent ∧
    (setOp r f v).body = r.body ∧
    (setOp r f v).explicitStatus = r.explicitStatus ∧
    (setOp r f v).explicitNullBody = r.explicitNullBody := by
  unfold setOp
  cases h : r.headersSent <;> simp [h]

theorem removeOp_fields (r : Responce) (f : String) :
    (removeOp r f).statusCode = r.statusCode ∧
    (removeOp r f).headersSent = r.headersSent ∧
    (removeOp r f).body = r.body ∧
    (removeOp r f).explicitStatus = r.explicitStatus ∧
    (removeOp r f).explicitNullBody = r.explicitNullBody := by
  unfold removeOp
  cases h : r.headersSent <;> simp [h]

theorem setTypeOp_fields (r : Responce) (t : String) :
    (setTypeOp r t).statusCode = r.statusCode ∧
    (setTypeOp r t).headersSent = r.headersSent ∧
    (setTypeOp r t).body = r.body := by
  unfold setTypeOp
  cases h : getType t with
  | some mt => exact ⟨(setOp_fields ..).1, (setOp_fields ..).2.1, (setOp_fields ..).2.2.1⟩
  | none => exact ⟨(removeOp_fields ..).1, (removeOp_fields ..).2.1, (removeOp_fields ..).2.2.1⟩

theorem setLength_fields (r : Responce) (n : Nat) :
    (setLength r n).statusCode = r.statusCode ∧
    (setLength r n).headersSent = r.headersSent ∧
    (setLength r n).body = r.body := by
  unfold setLength
  cases h : hasHeader r "Transfer-Encoding" with
  | true => simp
  | false =>
    simp only [Bool.not_false, if_true]
    exact ⟨(setOp_fields ..).1, (setOp_fields ..).2.1, (setOp_fields ..).2.2.1⟩

theorem statusAssignCore_fields (req : IncMsg) (r : Responce) (c : Nat) :
    (statusAssignCore req r c).headers = r.headers ∧
    (statusAssignCore req r c).headersSent = r.headersSent ∧
    (statusAssignCore req r c).body = r.body ∧
    (statusAssignCore req r c).statusCode = c ∧
    (statusAssignCore req r c).explicitStatus = true ∧
    (statusAssignCore req r c).explicitNullBody = r.explicitNullBody := by
  unfold statusAssignCore
  by_cases h : req.httpVersionMajor < 2 <;> simp [h]

theorem statusAssignNoClear_unsent (req : IncMsg) (r : Responce) (c : Nat)
    (h : r.headersSent = false) :
    statusAssignNoClear req r c = statusAssignCore req r c := by
  unfold statusAssignNoClear
  rw [h]
  simp

/-! ## Decimal round-trip -/

theorem digitCh_isDigit (d : Nat) : (digitCh d).isDigit = true := by
  unfold digitCh
  split <;> decide

theorem digitVal_digitCh (d : Nat) (h : d < 10) : digitVal (digitCh d) = d := by
  interval_cases d <;> decide

theorem isDigit_not_ws (c : Char) (h : c.isDigit = true) :
    isJsWhitespace c = false := by
  cases hw : isJsWhitespace c with
  | false => rfl
  | true =>
    exfalso
    simp only [isJsWhitespace, Bool.or_eq_true, beq_iff_eq] at hw
    have hw' : c = ' ' ∨ c = '\t' ∨ c = '\n' ∨ c = '\r' ∨ c = '\x0b' ∨
        c = '\x0c' := by tauto
    rcases hw' with h1 | h1 | h1 | h1 | h1 | h1 <;> subst h1 <;> simp at h

theorem isDigit_ne_dash (c : Char) (h : c.isDigit = true) : c ≠ '-' := by
  intro e
  subst e
  simp at h

theorem isDigit_ne_plus (c : Char) (h : c.isDigit = true) : c ≠ '+' := by
  intro e
  subst e
  simp at h

theorem natToDigitsAux_all_digit :
    ∀ fuel n, (natToDigitsAux fuel n).all (fun c => c.isDigit) = true := by
  intro fuel
  induction fuel with
  | zero => intro n; rfl
  | succ f ih =>
    intro n
    unfold natToDigitsAux
    split
    · simp [digitCh_isDigit]
    · simp [List.all_append, ih, digitCh_isDigit]

theorem natToDigitsAux_ne_nil :
    ∀ fuel n, n < fuel → natToDigitsAux fuel n ≠ [] := by
  intro fuel
  cases fuel with
  | zero => intro n h; omega
  | succ f =>
    intro n _
    unfold natToDigitsAux
    split
    · simp
    · simp

theorem natToDigitsAux_foldl :
    ∀ fuel n acc, n < fuel →
      (natToDigitsAux fuel n).foldl (fun a c => 10 * a + digitVal c) acc
        = acc * 10 ^ (natToDigitsAux fuel n).length + n := by
  intro fuel
  induction fuel with
  | zero => intro n acc h; omega
  | succ f ih =>
    intro n acc h
    unfold natToDigitsAux
    by_cases hn : n < 10
    · simp only [hn, if_true, List.foldl_cons, List.foldl_nil, List.length_cons,
        List.length_nil, digitVal_digitCh n hn]
      ring_nf
    · simp only [hn, if_false, List.foldl_append, List.length_append]
      have hdiv : n / 10 < f := by
        have h10 : 10 ≤ n := by omega
        have := Nat.div_lt_self (by omega : 0 < n) (by omega : 1 < 10)
        omega
      rw [ih (n / 10) acc hdiv]
      simp only [List.foldl_cons, List.foldl_nil, List.length_cons, List.length_nil]
      rw [digitVal_digitCh (n % 10) (Nat.mod_lt n (by omega))]
      have hmod := Nat.div_add_mod n 10
      ring_nf
      omega

theorem takeWhile_all {α} (p : α → Bool) :
    ∀ l : List α, l.all p = true → l.takeWhile p = l := by
  intro l
  induction l with
  | nil => intro; rfl
  | cons a l ih =>
    intro h
    rw [List.all_cons, Bool.and_eq_true] at h
    rw [List.takeWhile_cons, h.1]
    simp [ih h.2]

theorem leadDigits_natToDigits (n : Nat) :
    leadDigits (natToDigits n) = some n := by
  obtain ⟨a, l, hd⟩ : ∃ a l, natToDigits n = a :: l := by
    cases hc : natToDigits n with
    | nil => exact absurd hc (natToDigitsAux_ne_nil (n + 1) n (by omega))
    | cons a l => exact ⟨a, l, rfl⟩
  unfold leadDigits
  rw [takeWhile_all _ (natToDigits n) (natToDigitsAux_all_digit (n + 1) n), hd]
  show some ((a :: l).foldl (fun a c => 10 * a + digitVal c) 0) = some n
  have hf := natToDigitsAux_foldl (n + 1) n 0 (by omega)
  rw [show natToDigitsAux (n + 1) n = a :: l from hd] at hf
  rw [hf]
  simp

theorem natToDigits_head_digit (n : Nat) (a : Char) (l : List Char)
    (h : natToDigits n = a :: l) : a.isDigit = true := by
  have hall := natToDigitsAux_all_digit (n + 1) n
  rw [show natToDigitsAux (n + 1) n = natToDigits n from rfl, h] at hall
  rw [List.all_cons, Bool.and_eq_true] at hall
  exact hall.1

theorem parseIntJs_natToStr (n : Nat) :
    parseIntJs (natToStr n) = some (n : Int) := by
  unfold parseIntJs natToStr
  have hlist : (String.mk (natToDigits n)).toList = natToDigits n := rfl
  rw [hlist]
  cases hd : natToDigits n with
  | nil => exact absurd hd (natToDigitsAux_ne_nil (n + 1) n (by omega))
  | cons a l =>
    have ha : a.isDigit = true := natToDigits_head_digit n a l hd
    have hws : isJsWhitespace a = false := isDigit_not_ws a ha
    rw [List.dropWhile_cons, hws]
    simp only [Bool.false_eq_true, if_false, List.head?_cons]
    have hdash : ¬(some a = some '-') := by
      intro e
      exact isDigit_ne_dash a ha (Option.some.inj e)
    have hplus : ¬(some a = some '+') := by
      intro e
      exact isDigit_ne_plus a ha (Option.some.inj e)
    rw [if_neg hdash, if_neg hplus]
    have := leadDigits_natToDigits n
    rw [hd] at this
    rw [this]
    rfl

/-! ## The claims -/

/-- C1: on a response whose headers have not been sent, whose status is not
in the no-body family, and whose Content-Type is not JSON, assigning
`body = null` sets the status to 204 and removes the Content-Type,
Content-Length and Transfer-Encoding headers (and records the explicit null
body). -/
theorem null_body_sets_204 (req : IncMsg) (r : Responce)
    (hsent : r.headersSent = false)
    (hempty : statusesEmpty r.statusCode = false)
    (hjson : typeGet r ≠ "application/json") :
    (setBody req r .null).statusCode = 204 ∧
    (setBody req r .null).body = .null ∧
    hasHeader (setBody req r .null) "Content-Type" = false ∧
    hasHeader (setBody req r .null) "Content-Length" = false ∧
    hasHeader (setBody req r .null) "Transfer-Encoding" = false ∧
    (setBody req r .null).explicitNullBody = true := by
  have hb : typeGet { r with body := BodyVal.null } = typeGet r := rfl
  unfold setBody
  simp only [isNullish, if_true, hb]
  simp only [hempty, Bool.not_false, if_true]
  have hjson' : (typeGet r == "application/json") = false :=
    beq_eq_false_iff_ne.mpr hjson
  simp only [hjson', Bool.false_eq_true, if_false]
  set r1 := statusAssignNoClear req { r with body := BodyVal.null } 204 with hr1
  have hr1sent : r1.headersSent = false := by
    rw [hr1, statusAssignNoClear_unsent req _ 204 (by exact hsent)]
    exact (statusAssignCore_fields ..).2.1.trans hsent
  have hr1code : r1.statusCode = 204 := by
    rw [hr1, statusAssignNoClear_unsent req _ 204 (by exact hsent)]
    exact (statusAssignCore_fields ..).2.2.2.1
  have hr1body : r1.body = .null := by
    rw [hr1, statusAssignNoClear_unsent req _ 204 (by exact hsent)]
    exact (statusAssignCore_fields ..).2.2.1
  have hr1enb : r1.explicitNullBody = r.explicitNullBody := by
    rw [hr1, statusAssignNoClear_unsent req _ 204 (by exact hsent)]
    exact (statusAssignCore_fields ..).2.2.2.2.2
  unfold finishNullBranch
  simp only [if_pos rfl]
  set r2 : Responce := { r1 with explicitNullBody := true } with hr2
  simp only [if_true]
  have hr2sent : r2.headersSent = false := hr1sent
  have h3sent : (removeOp r2 "Content-Type").headersSent = false := by
    rw [(removeOp_fields ..).2.1]; exact hr2sent
  have h4sent : (removeOp (removeOp r2 "Content-Type") "Content-Length").headersSent
      = false := by
    rw [(removeOp_fields ..).2.1]; exact h3sent
  refine ⟨?_, ?_, ?_, ?_, ?_, ?_⟩
  · rw [(removeOp_fields ..).1, (removeOp_fields ..).1, (removeOp_fields ..).1]
    exact hr1code
  · rw [(removeOp_fields ..).2.2.1, (removeOp_fields ..).2.2.1,
      (removeOp_fields ..).2.2.1]
    exact hr1body
  · unfold hasHeader
    rw [getHeader_removeOp _ _ _ h4sent]
    rw [if_neg (by decide : ¬ fieldEq "Content-Type" "Transfer-Encoding" = true)]
    rw [getHeader_removeOp _ _ _ h3sent]
    rw [if_neg (by decide : ¬ fieldEq "Content-Type" "Content-Length" = true)]
    rw [getHeader_removeOp _ _ _ hr2sent]
    rw [if_pos (by decide : fieldEq "Content-Type" "Content-Type" = true)]
    rfl
  · unfold hasHeader
    rw [getHeader_removeOp _ _ _ h4sent]
    rw [if_neg (by decide : ¬ fieldEq "Content-Length" "Transfer-Encoding" = true)]
    rw [getHeader_removeOp _ _ _ h3sent]
    rw [if_pos (by decide : fieldEq "Content-Length" "Content-Length" = true)]
    rfl
  · unfold hasHeader
    rw [getHeader_removeOp _ _ _ h4sent]
    rw [if_pos (by decide : fieldEq "Transfer-Encoding" "Transfer-Encoding" = true)]
    rfl
  · rw [(removeOp_fields ..).2.2.2.2, (removeOp_fields ..).2.2.2.2,
      (removeOp_fields ..).2.2.2.2]

/-- C1 witness: a fresh 200 response with a text body type. -/
theorem null_body_sets_204_witness :
    (setBody plainReq
      { statusCode := 200, headers := [("Content-Type", "text/plain; charset=utf-8")],
        explicitStatus := true, body := .str "hi" } .null).statusCode = 204 ∧
    hasHeader (setBody plainReq
      { statusCode := 200, headers := [("Content-Type", "text/plain; charset=utf-8")],
        explicitStatus := true, body := .str "hi" } .null) "Content-Type" = false :=
  ⟨(null_body_sets_204 plainReq
      { statusCode := 200, headers := [("Content-Type", "text/plain; charset=utf-8")],
        explicitStatus := true, body := .str "hi" }
      (by decide) (by decide) (by decide)).1,
   (null_body_sets_204 plainReq
      { statusCode := 200, headers := [("Content-Type", "text/plain; charset=utf-8")],
        explicitStatus := true, body := .str "hi" }
      (by decide) (by decide) (by decide)).2.2.1⟩

/-- C2: when the status is not in the no-body family and the Content-Type
stripped of parameters is `application/json`, assigning `body = null` turns
the body into the 4-character string `"null"` and changes nothing else — in
particular the status is unchanged. -/
theorem json_null_body (req : IncMsg) (r : Responce)
    (hempty : statusesEmpty r.statusCode = false)
    (hjson : typeGet r = "application/json") :
    setBody req r .null = { r with body := .str "null" } ∧
    (setBody req r .null).statusCode = r.statusCode ∧
    ("null" : String).length = 4 := by
  have hb : typeGet { r with body := BodyVal.null } = typeGet r := rfl
  have hmain : setBody req r .null = { r with body := .str "null" } := by
    unfold setBody
    simp only [isNullish, if_true, hb]
    simp only [hempty, Bool.not_false, if_true]
    simp only [hjson, beq_self_eq_true, if_true]
  exact ⟨hmain, by rw [hmain], by decide⟩

/-- C2 witness: a 200 response with `application/json; charset=utf-8`. -/
theorem json_null_body_witness :
    setBody plainReq
      { statusCode := 200,
        headers := [("Content-Type", "application/json; charset=utf-8")],
        explicitStatus := true } .null =
    { statusCode := 200,
      headers := [("Content-Type", "application/json; charset=utf-8")],
      explicitStatus := true, body := .str "null" } :=
  (json_null_body plainReq
    { statusCode := 200,
      headers := [("Content-Type", "application/json; charset=utf-8")],
      explicitStatus := true }
    (by decide) (by decide)).1

/-- C3 counterexample: the body-clearing step tests JS truthiness
(`this.body && statuses.empty[code]`), not non-nullness.  A response whose
body is the non-null empty string keeps that body — and its Content-Type —
across an assignment of status 204. -/
theorem status_204_keeps_empty_string_body :
    (setStatus plainReq
      { statusCode := 200,
        headers := [("Content-Type", "text/plain; charset=utf-8")],
        explicitStatus := true, body := .str "" } (204 : ℚ)).toOption.map
      (fun r' => (r'.body, hasHeader r' "Content-Type", r'.statusCode))
    = some (BodyVal.str "", true, 204) := by decide

/-- C3 (amended): assigning a no-body-family status to a response whose
headers are unsent and whose body is JS-truthy (in particular any non-empty
string, buffer, or stream — but not the falsy empty string) clears the body
to null and, through the cascaded null-body transition, removes the
Content-Type, Content-Length and Transfer-Encoding headers. -/
theorem status_empty_clears_truthy_body (req : IncMsg) (r : Responce) (c : Nat)
    (hsent : r.headersSent = false)
    (htruthy : jsTruthy r.body = true)
    (hempty : statusesEmpty c = true)
    (hrange : 100 ≤ c ∧ c ≤ 999) :
    ∃ r', setStatus req r (c : ℚ) = .ok r' ∧
      r'.statusCode = c ∧
      r'.body = .null ∧
      hasHeader r' "Content-Type" = false ∧
      hasHeader r' "Content-Length" = false ∧
      hasHeader r' "Transfer-Encoding" = false ∧
      r'.explicitNullBody = true := by
  unfold setStatus
  rw [hsent]
  simp only [Bool.false_eq_true, if_false]
  have hden : ((c : ℚ)).den = 1 := Rat.den_natCast c
  have hrangeQ : 100 ≤ (c : ℚ) ∧ (c : ℚ) ≤ 999 :=
    ⟨by exact_mod_cast hrange.1, by exact_mod_cast hrange.2⟩
  rw [if_neg (not_not_intro hden), if_neg (not_not_intro hrangeQ)]
  have hnum : ((c : ℚ)).num.toNat = c := by
    rw [Rat.num_natCast]
    exact Int.toNat_natCast c
  rw [hnum]
  set r1 := statusAssignCore req r c with hr1
  have h1body : r1.body = r.body := (statusAssignCore_fields ..).2.2.1
  have h1sent : r1.headersSent = false :=
    ((statusAssignCore_fields ..).2.1).trans hsent
  have h1code : r1.statusCode = c := (statusAssignCore_fields ..).2.2.2.1
  rw [if_pos (by rw [h1body]; exact ⟨htruthy, hempty⟩)]
  refine ⟨setBody req r1 .null, rfl, ?_⟩
  unfold setBody
  simp only [isNullish, if_true]
  have hc1 : statusesEmpty ({ r1 with body := BodyVal.null }).statusCode = true := by
    show statusesEmpty r1.statusCode = true
    rw [h1code]
    exact hempty
  rw [hc1]
  simp only [Bool.not_true, Bool.false_eq_true, if_false]
  unfold finishNullBranch
  simp only [if_pos rfl, if_true]
  set r2 : Responce := { r1 with body := BodyVal.null, explicitNullBody := true }
    with hr2
  have hr2sent : r2.headersSent = false := h1sent
  have h3sent : (removeOp r2 "Content-Type").headersSent = false := by
    rw [(removeOp_fields ..).2.1]; exact hr2sent
  have h4sent : (removeOp (removeOp r2 "Content-Type") "Content-Length").headersSent
      = false := by
    rw [(removeOp_fields ..).2.1]; exact h3sent
  refine ⟨?_, ?_, ?_, ?_, ?_, ?_⟩
  · rw [(removeOp_fields ..).1, (removeOp_fields ..).1, (removeOp_fields ..).1]
    exact h1code
  · rw [(removeOp_fields ..).2.2.1, (removeOp_fields ..).2.2.1,
      (removeOp_fields ..).2.2.1]
  · unfold hasHeader
    rw [getHeader_removeOp _ _ _ h4sent]
    rw [if_neg (by decide : ¬ fieldEq "Content-Type" "Transfer-Encoding" = true)]
    rw [getHeader_removeOp _ _ _ h3sent]
    rw [if_neg (by decide : ¬ fieldEq "Content-Type" "Content-Length" = true)]
    rw [getHeader_removeOp _ _ _ hr2sent]
    rw [if_pos (by decide : fieldEq "Content-Type" "Content-Type" = true)]
    rfl
  · unfold hasHeader
    rw [getHeader_removeOp _ _ _ h4sent]
    rw [if_neg (by decide : ¬ fieldEq "Content-Length" "Transfer-Encoding" = true)]
    rw [getHeader_removeOp _ _ _ h3sent]
    rw [if_pos (by decide : fieldEq "Content-Length" "Content-Length" = true)]
    rfl
  · unfold hasHeader
    rw [getHeader_removeOp _ _ _ h4sent]
    rw [if_pos (by decide : fieldEq "Transfer-Encoding" "Transfer-Encoding" = true)]
    rfl
  · rw [(removeOp_fields ..).2.2.2.2, (removeOp_fields ..).2.2.2.2,
      (removeOp_fields ..).2.2.2.2]

/-- C3 witness: a 200 response carrying a non-empty string body and a
Content-Length, assigned status 304. -/
theorem status_empty_clears_truthy_body_witness :
    ∃ r', setStatus plainReq
      { statusCode := 200,
        headers := [("Content-Type", "text/plain; charset=utf-8"),
          ("Content-Length", "5")],
        explicitStatus := true, body := .str "hello" } (304 : ℚ) = .ok r' ∧
      r'.statusCode = 304 ∧
      r'.body = .null ∧
      hasHeader r' "Content-Type" = false ∧
      hasHeader r' "Content-Length" = false ∧
      hasHeader r' "Transfer-Encoding" = false ∧
      r'.explicitNullBody = true :=
  status_empty_clears_truthy_body plainReq
    { statusCode := 200,
      headers := [("Content-Type", "text/plain; charset=utf-8"),
        ("Content-Length", "5")],
      explicitStatus := true, body := .str "hello" } 304
    (by decide) (by decide) (by decide) (by decide)

/-- C4: once headers are sent, `set`, `remove`, `vary` and status assignment
are silent no-ops: the response (headers and status code included) is
returned unchanged, and the status setter returns normally (no error) even
for invalid codes. -/
theorem headers_sent_freeze (req : IncMsg) (r : Responce)
    (f v : String) (code : ℚ) (hsent : r.headersSent = true) :
    setOp r f v = r ∧
    removeOp r f = r ∧
    varyOp r f = r ∧
    setStatus req r code = .ok r := by
  refine ⟨?_, ?_, ?_, ?_⟩
  · unfold setOp; rw [hsent]; simp
  · unfold removeOp; rw [hsent]; simp
  · unfold varyOp; rw [hsent]; simp
  · unfold setStatus; rw [hsent]; simp

/-- C4 witness: a sent response with one header, hit with `set`, `remove`,
`vary` and an (invalid) status assignment. -/
theorem headers_sent_freeze_witness :
    setOp { headers := [("X-A", "1")], headersSent := true } "X-B" "2"
      = { headers := [("X-A", "1")], headersSent := true } ∧
    removeOp { headers := [("X-A", "1")], headersSent := true } "X-A"
      = { headers := [("X-A", "1")], headersSent := true } ∧
    varyOp { headers := [("X-A", "1")], headersSent := true } "Origin"
      = { headers := [("X-A", "1")], headersSent := true } ∧
    setStatus plainReq { headers := [("X-A", "1")], headersSent := true } (42 : ℚ)
      = .ok { headers := [("X-A", "1")], headersSent := true } :=
  headers_sent_freeze plainReq { headers := [("X-A", "1")], headersSent := true }
    "X-B" "2" (42 : ℚ) (by decide)

/-- C5 counterexample: on a response whose headers are sent, assigning the
invalid status 50 raises no error at all — the setter bails out silently —
so "for every value outside [100,999] the assignment raises a validation
error" fails as stated. -/
theorem invalid_status_silent_after_send :
    setStatus plainReq { statusCode := 200, headersSent := true } (50 : ℚ)
      = .ok { statusCode := 200, headersSent := true } := by
  decide

/-- C5 (amended): provided the headers have not been sent, assigning any
integer status in [100,999] is accepted (the stored code becomes that
integer) and any non-integer or out-of-range value raises a validation
error; out-of-range values are never clamped.  (Once headers are sent, the
setter is instead a silent no-op, per the headers-sent freeze.) -/
theorem status_validation (req : IncMsg) (r : Responce) (code : ℚ)
    (hsent : r.headersSent = false) :
    (code.den = 1 → 100 ≤ code → code ≤ 999 →
      ∃ r', setStatus req r code = .ok r' ∧ (r'.statusCode : ℤ) = code.num) ∧
    (¬(code.den = 1 ∧ 100 ≤ code ∧ code ≤ 999) →
      ∃ msg, setStatus req r code = .error msg) := by
  constructor
  · intro hden hlo hhi
    unfold setStatus
    rw [hsent]
    simp only [Bool.false_eq_true, if_false]
    rw [if_neg (not_not_intro hden), if_neg (not_not_intro ⟨hlo, hhi⟩)]
    have hnumpos : 0 ≤ code.num := by
      have : (0 : ℚ) ≤ code := le_trans (by norm_num) hlo
      exact Rat.num_nonneg.mpr this
    by_cases hclear : jsTruthy (statusAssignCore req r code.num.toNat).body
        ∧ statusesEmpty code.num.toNat
    · rw [if_pos hclear]
      refine ⟨_, rfl, ?_⟩
      have hbody : (setBody req (statusAssignCore req r code.num.toNat) .null).statusCode
          = code.num.toNat := by
        set r1 := statusAssignCore req r code.num.toNat with hr1
        have h1sent : r1.headersSent = false :=
          ((statusAssignCore_fields ..).2.1).trans hsent
        have h1code : r1.statusCode = code.num.toNat :=
          (statusAssignCore_fields ..).2.2.2.1
        unfold setBody
        simp only [isNullish, if_true]
        have hce : statusesEmpty ({ r1 with body := BodyVal.null }).statusCode
            = true := by
          show statusesEmpty r1.statusCode = true
          rw [h1code]
          exact hclear.2
        rw [hce]
        simp only [Bool.not_true, Bool.false_eq_true, if_false]
        unfold finishNullBranch
        simp only [if_pos rfl, if_true]
        rw [(removeOp_fields ..).1, (removeOp_fields ..).1, (removeOp_fields ..).1]
        exact h1code
      rw [hbody]
      omega
    · rw [if_neg hclear]
      refine ⟨_, rfl, ?_⟩
      rw [(statusAssignCore_fields ..).2.2.2.1]
      omega
  · intro hbad
    unfold setStatus
    rw [hsent]
    simp only [Bool.false_eq_true, if_false]
    by_cases hden : code.den = 1
    · have hrange : ¬(100 ≤ code ∧ code ≤ 999) := by tauto
      rw [if_neg (not_not_intro hden), if_pos hrange]
      exact ⟨_, rfl⟩
    · rw [if_pos hden]
      exact ⟨_, rfl⟩

/-- C5 witness: status 250 is accepted on an unsent response; status 50 and
the non-integer 204.5 are rejected. -/
theorem status_validation_witness :
    (∃ r', setStatus plainReq { statusCode := 200 } (250 : ℚ) = .ok r' ∧
      (r'.statusCode : ℤ) = (250 : ℚ).num) ∧
    (∃ msg, setStatus plainReq { statusCode := 200 } (50 : ℚ) = .error msg) ∧
    (∃ msg, setStatus plainReq { statusCode := 200 } (mkRat 409 2) = .error msg) :=
  ⟨(status_validation plainReq { statusCode := 200 } (250 : ℚ) (by decide)).1
      (by norm_num) (by norm_num) (by norm_num),
   (status_validation plainReq { statusCode := 200 } (50 : ℚ) (by decide)).2
      (by norm_num),
   (status_validation plainReq { statusCode := 200 } (mkRat 409 2) (by decide)).2
      (by norm_num [mkRat])⟩

/-! ## More header helpers (needed for the type-policy claims) -/

theorem statusAssignNoClear_fields (req : IncMsg) (r : Responce) (c : Nat) :
    (statusAssignNoClear req r c).headers = r.headers ∧
    (statusAssignNoClear req r c).headersSent = r.headersSent ∧
    (statusAssignNoClear req r c).body = r.body := by
  unfold statusAssignNoClear
  cases h : r.headersSent with
  | true => simp [h]
  | false =>
    simp only [h, Bool.false_eq_true, if_false]
    exact ⟨(statusAssignCore_fields ..).1,
      ((statusAssignCore_fields ..).2.1).trans h,
      (statusAssignCore_fields ..).2.2.1⟩

theorem getHeader_congr {r1 r2 : Responce} (h : r1.headers = r2.headers)
    (f : String) : getHeader r1 f = getHeader r2 f := by
  unfold getHeader
  rw [h]

theorem getHeader_setOp_ne' (r : Responce) (f v g : String)
    (hg : fieldEq f g = false) :
    getHeader (setOp r f v) g = getHeader r g := by
  cases hs : r.headersSent with
  | true => unfold setOp; rw [hs]; simp
  | false => exact getHeader_setOp_ne r f v g hs hg

theorem getHeader_removeOp_ne (r : Responce) (f g : String)
    (hg : fieldEq g f = false) :
    getHeader (removeOp r f) g = getHeader r g := by
  cases hs : r.headersSent with
  | true => unfold removeOp; rw [hs]; simp
  | false =>
    rw [getHeader_removeOp r f g hs, if_neg (by simp [hg])]

theorem getHeader_setLength_ne (r : Responce) (n : Nat) (g : String)
    (hg : fieldEq "Content-Length" g = false) :
    getHeader (setLength r n) g = getHeader r g := by
  unfold setLength
  by_cases h : hasHeader r "Transfer-Encoding"
  · simp [h]
  · simp only [h, Bool.not_false, if_true]
    exact getHeader_setOp_ne' r _ _ g hg

theorem getHeader_ite (c : Prop) [Decidable c] (a b : Responce) (f : String)
    (ha : getHeader a f = getHeader b f) :
    getHeader (if c then a else b) f = getHeader b f := by
  split
  · exact ha
  · rfl

theorem headersSent_ite (c : Prop) [Decidable c] (a b : Responce)
    (ha : a.headersSent = b.headersSent) :
    (if c then a else b).headersSent = b.headersSent := by
  split
  · exact ha
  · rfl

theorem getHeader_statusAssignNoClear (req : IncMsg) (r : Responce) (c : Nat)
    (f : String) :
    getHeader (statusAssignNoClear req r c) f = getHeader r f :=
  getHeader_congr (statusAssignNoClear_fields ..).1 f

theorem setTypeOp_bin (r : Responce) :
    setTypeOp r "bin" = setOp r "Content-Type" "application/octet-stream" := rfl

theorem setTypeOp_json (r : Responce) :
    setTypeOp r "json" = setOp r "Content-Type" "application/json; charset=utf-8" :=
  rfl

theorem setTypeOp_html (r : Responce) :
    setTypeOp r "html" = setOp r "Content-Type" "text/html; charset=utf-8" := rfl

theorem setTypeOp_text (r : Responce) :
    setTypeOp r "text" = setOp r "Content-Type" "text/plain; charset=utf-8" := rfl

theorem setTypeOp_html_full (r : Responce) :
    setTypeOp r "text/html; charset=utf-8"
      = setOp r "Content-Type" "text/html; charset=utf-8" := rfl

theorem setTypeOp_text_full (r : Responce) :
    setTypeOp r "text/plain; charset=utf-8"
      = setOp r "Content-Type" "text/plain; charset=utf-8" := rfl

/-- C6 counterexample: the `json` branch of the body setter sets
`this.type = "json"` unconditionally, so a structured body **overwrites** a
Content-Type the caller had set explicitly. -/
theorem json_body_overwrites_explicit_type :
    getHeader
      { statusCode := 200,
        headers := [("Content-Type", "text/plain; charset=utf-8")],
        explicitStatus := true } "Content-Type"
      = some "text/plain; charset=utf-8" ∧
    getHeader (setBody plainReq
      { statusCode := 200,
        headers := [("Content-Type", "text/plain; charset=utf-8")],
        explicitStatus := true } (.json (.jnum 1))) "Content-Type"
      = some "application/json; charset=utf-8" := by decide

/-- C6 (amended): on a response whose headers are unsent, string, buffer and
stream bodies never overwrite an existing Content-Type, and buffer/stream
bodies set the generic fallback type only when none is present; structured
(JSON) bodies however always set the JSON content type, replacing any
caller-set one. -/
theorem getHeader_bodyUpdate (r : Responce) (val : BodyVal) (f : String) :
    getHeader { r with body := val } f = getHeader r f := rfl

/-- C6 (amended): on a response whose headers are unsent, string, buffer and
stream bodies never overwrite an existing Content-Type, and buffer/stream
bodies set the generic fallback type only when none is present; structured
(JSON) bodies however always set the JSON content type, replacing any
caller-set one. -/
theorem body_setter_type_policy (req : IncMsg) (r : Responce)
    (hsent : r.headersSent = false) :
    (hasHeader r "Content-Type" = true →
      (∀ s, getHeader (setBody req r (.str s)) "Content-Type"
          = getHeader r "Content-Type") ∧
      (∀ bs, getHeader (setBody req r (.buf bs)) "Content-Type"
          = getHeader r "Content-Type") ∧
      (∀ i, getHeader (setBody req r (.stream i)) "Content-Type"
          = getHeader r "Content-Type")) ∧
    (hasHeader r "Content-Type" = false →
      (∀ bs, getHeader (setBody req r (.buf bs)) "Content-Type"
          = some "application/octet-stream") ∧
      (∀ i, getHeader (setBody req r (.stream i)) "Content-Type"
          = some "application/octet-stream")) ∧
    (∀ v, getHeader (setBody req r (.json v)) "Content-Type"
        = some "application/json; charset=utf-8") := by
  have hbufne : fieldEq "Content-Length" "Content-Type" = false := by decide
  refine ⟨?_, ?_, ?_⟩
  · intro hCT
    have hCT' : (getHeader r "Content-Type").isSome = true := hCT
    refine ⟨?_, ?_, ?_⟩
    · intro s
      unfold setBody
      simp only [isNullish, Bool.false_eq_true, if_false]
      rw [hasHeader, getHeader_ite _ _ _ _ (getHeader_statusAssignNoClear ..)]
      simp only [getHeader_bodyUpdate, hCT', Bool.not_true, Bool.false_eq_true,
        if_false]
      rw [getHeader_setLength_ne _ _ _ hbufne,
        getHeader_ite _ _ _ _ (getHeader_statusAssignNoClear ..)]
      simp only [getHeader_bodyUpdate]
    · intro bs
      unfold setBody
      simp only [isNullish, Bool.false_eq_true, if_false]
      rw [hasHeader, getHeader_ite _ _ _ _ (getHeader_statusAssignNoClear ..)]
      simp only [getHeader_bodyUpdate, hCT', Bool.not_true, Bool.false_eq_true,
        if_false]
      rw [getHeader_setLength_ne _ _ _ hbufne,
        getHeader_ite _ _ _ _ (getHeader_statusAssignNoClear ..)]
      simp only [getHeader_bodyUpdate]
    · intro i
      unfold setBody
      simp only [isNullish, Bool.false_eq_true, if_false]
      rw [hasHeader, getHeader_ite _ _ _ _ (getHeader_statusAssignNoClear ..)]
      simp only [getHeader_bodyUpdate, hCT', Bool.not_true, Bool.false_eq_true,
        if_false]
      split
      · rw [getHeader_removeOp_ne _ _ _ (by decide),
          getHeader_ite _ _ _ _ (getHeader_statusAssignNoClear ..)]
        simp only [getHeader_bodyUpdate]
      · rw [getHeader_ite _ _ _ _ (getHeader_statusAssignNoClear ..)]
        simp only [getHeader_bodyUpdate]
  · intro hCT
    have hCT' : (getHeader r "Content-Type").isSome = false := hCT
    refine ⟨?_, ?_⟩
    · intro bs
      have hR2sent : (if (!r.explicitStatus) = true then
          statusAssignNoClear req { r with body := BodyVal.buf bs } 200
        else { r with body := BodyVal.buf bs }).headersSent = false := by
        rw [headersSent_ite _ _ _ ((statusAssignNoClear_fields ..).2.1)]
        exact hsent
      unfold setBody
      simp only [isNullish, Bool.false_eq_true, if_false]
      rw [hasHeader, getHeader_ite _ _ _ _ (getHeader_statusAssignNoClear ..)]
      simp only [getHeader_bodyUpdate, hCT', Bool.not_false, if_true]
      rw [getHeader_setLength_ne _ _ _ hbufne, setTypeOp_bin,
        getHeader_setOp_self _ _ _ hR2sent]
    · intro i
      have hR2sent : (if (!r.explicitStatus) = true then
          statusAssignNoClear req { r with body := BodyVal.stream i } 200
        else { r with body := BodyVal.stream i }).headersSent = false := by
        rw [headersSent_ite _ _ _ ((statusAssignNoClear_fields ..).2.1)]
        exact hsent
      unfold setBody
      simp only [isNullish, Bool.false_eq_true, if_false]
      rw [hasHeader, getHeader_ite _ _ _ _ (getHeader_statusAssignNoClear ..)]
      simp only [getHeader_bodyUpdate, hCT', Bool.not_false, if_true]
      rw [setTypeOp_bin]
      split
      · rw [getHeader_setOp_self _ _ _ (by
          rw [(removeOp_fields ..).2.1]
          exact hR2sent)]
      · rw [getHeader_setOp_self _ _ _ hR2sent]
  · intro v
    have hR2sent : (if (!r.explicitStatus) = true then
        statusAssignNoClear req { r with body := BodyVal.json v } 200
      else { r with body := BodyVal.json v }).headersSent = false := by
      rw [headersSent_ite _ _ _ ((statusAssignNoClear_fields ..).2.1)]
      exact hsent
    unfold setBody
    simp only [isNullish, Bool.false_eq_true, if_false]
    rw [setTypeOp_json]
    rw [getHeader_setOp_self _ _ _ (by
      rw [(removeOp_fields ..).2.1]
      exact hR2sent)]

/-- C6 witness: a buffer body on a response with an explicit type keeps that
type; on a bare response it sets the fallback; a structured body replaces an
explicit type. -/
theorem body_setter_type_policy_witness :
    getHeader (setBody plainReq
      { statusCode := 200, headers := [("Content-Type", "text/plain; charset=utf-8")],
        explicitStatus := true } (.buf [104, 105])) "Content-Type"
      = some "text/plain; charset=utf-8" ∧
    getHeader (setBody plainReq { statusCode := 200, explicitStatus := true }
      (.buf [104, 105])) "Content-Type" = some "application/octet-stream" ∧
    getHeader (setBody plainReq
      { statusCode := 200, headers := [("Content-Type", "text/plain; charset=utf-8")],
        explicitStatus := true } (.json .jobj)) "Content-Type"
      = some "application/json; charset=utf-8" :=
  ⟨((body_setter_type_policy plainReq
      { statusCode := 200, headers := [("Content-Type", "text/plain; charset=utf-8")],
        explicitStatus := true } (by decide)).1 (by decide)).2.1 [104, 105],
   ((body_setter_type_policy plainReq { statusCode := 200, explicitStatus := true }
      (by decide)).2.1 (by decide)).1 [104, 105],
   (body_setter_type_policy plainReq
      { statusCode := 200, headers := [("Content-Type", "text/plain; charset=utf-8")],
        explicitStatus := true } (by decide)).2.2 .jobj⟩

/-- C7 counterexample: with a Transfer-Encoding header present, the `length`
assignment inside the string-body branch is a no-op, so a stale
Content-Length survives and the read-back length is 10, not the byte length
3 of the new body. -/
theorem transfer_encoding_blocks_length :
    lengthGet (setBody plainReq
      { statusCode := 200,
        headers := [("Transfer-Encoding", "chunked"), ("Content-Length", "10")],
        explicitStatus := true } (.str "abc")) = some 10 ∧
    ("abc" : String).utf8ByteSize = 3 := by decide

theorem lengthGet_after_setLength (x : Responce) (n : Nat)
    (hx : x.headersSent = false)
    (hTEx : hasHeader x "Transfer-Encoding" = false) :
    lengthGet (setLength x n) = some (n : Int) := by
  unfold setLength
  simp only [hTEx, Bool.not_false, if_true]
  have hCLself := getHeader_setOp_self x "Content-Length" (natToStr n) hx
  unfold lengthGet
  rw [hasHeader, hCLself]
  simp only [Option.isSome_some, if_true, Option.getD_some, parseIntJs_natToStr]

/-- C7 (amended): assigning a string body `s` to a response whose headers
are unsent, whose Content-Type is unset and which has no Transfer-Encoding
header yields Content-Type `text/html; charset=utf-8` when `s` starts with
`<` after leading whitespace and `text/plain; charset=utf-8` otherwise, and
the readable `length` equals the exact UTF-8 byte length of `s`.  (With a
Transfer-Encoding header present the length assignment is a silent no-op
and any prior Content-Length stays, per the counterexample.) -/
theorem string_body_type_and_length (req : IncMsg) (r : Responce) (s : String)
    (hsent : r.headersSent = false)
    (hCT : hasHeader r "Content-Type" = false)
    (hTE : hasHeader r "Transfer-Encoding" = false) :
    getHeader (setBody req r (.str s)) "Content-Type"
      = some (if jsLeadingLt s then "text/html; charset=utf-8"
          else "text/plain; charset=utf-8") ∧
    lengthGet (setBody req r (.str s)) = some (s.utf8ByteSize : Int) := by
  have hbufne : fieldEq "Content-Length" "Content-Type" = false := by decide
  have hCT' : (getHeader r "Content-Type").isSome = false := hCT
  have hR2sent : (if (!r.explicitStatus) = true then
      statusAssignNoClear req { r with body := BodyVal.str s } 200
    else { r with body := BodyVal.str s }).headersSent = false := by
    rw [headersSent_ite _ _ _ ((statusAssignNoClear_fields ..).2.1)]
    exact hsent
  unfold setBody
  simp only [isNullish, Bool.false_eq_true, if_false]
  rw [hasHeader, getHeader_ite _ _ _ _ (getHeader_statusAssignNoClear ..)]
  simp only [getHeader_bodyUpdate, hCT', Bool.not_false, if_true]
  by_cases hlt : jsLeadingLt s = true
  · simp only [hlt, if_true]
    rw [setTypeOp_html]
    refine ⟨?_, ?_⟩
    · rw [getHeader_setLength_ne _ _ _ hbufne,
        getHeader_setOp_self _ _ _ hR2sent]
    · refine lengthGet_after_setLength _ _ ?_ ?_
      · rw [(setOp_fields ..).2.1]
        exact hR2sent
      · rw [hasHeader, getHeader_setOp_ne' _ _ _ _ (by decide),
          getHeader_ite _ _ _ _ (getHeader_statusAssignNoClear ..)]
        simp only [getHeader_bodyUpdate]
        exact hTE
  · have hlt' : jsLeadingLt s = false := by
      cases h : jsLeadingLt s
      · rfl
      · exact absurd h hlt
    simp only [hlt', Bool.false_eq_true, if_false]
    rw [setTypeOp_text]
    refine ⟨?_, ?_⟩
    · rw [getHeader_setLength_ne _ _ _ hbufne,
        getHeader_setOp_self _ _ _ hR2sent]
    · refine lengthGet_after_setLength _ _ ?_ ?_
      · rw [(setOp_fields ..).2.1]
        exact hR2sent
      · rw [hasHeader, getHeader_setOp_ne' _ _ _ _ (by decide),
          getHeader_ite _ _ _ _ (getHeader_statusAssignNoClear ..)]
        simp only [getHeader_bodyUpdate]
        exact hTE

/-- C7 witness: a plain string gets the text type and its byte length; a
string opening (after whitespace) with `<` gets the HTML type. -/
theorem string_body_type_and_length_witness :
    getHeader (setBody plainReq { statusCode := 200 } (.str "hello"))
      "Content-Type" = some "text/plain; charset=utf-8" ∧
    lengthGet (setBody plainReq { statusCode := 200 } (.str "hello"))
      = some 5 ∧
    getHeader (setBody plainReq { statusCode := 200 } (.str "  <p>hi"))
      "Content-Type" = some "text/html; charset=utf-8" := by
  have h1 := string_body_type_and_length plainReq { statusCode := 200 } "hello"
    (by decide) (by decide) (by decide)
  have h2 := string_body_type_and_length plainReq { statusCode := 200 } "  <p>hi"
    (by decide) (by decide) (by decide)
  refine ⟨?_, ?_, ?_⟩
  · rw [h1.1]
    decide
  · rw [h1.2]
    decide
  · rw [h2.1]
    decide

theorem body_ite (c : Prop) [Decidable c] (a b : Responce)
    (ha : a.body = b.body) : (if c then a else b).body = b.body := by
  split
  · exact ha
  · rfl

theorem statusCode_ite (c : Prop) [Decidable c] (a b : Responce)
    (ha : a.statusCode = b.statusCode) :
    (if c then a else b).statusCode = b.statusCode := by
  split
  · exact ha
  · rfl

theorem getHeader_setTypeOp_ne (r : Responce) (t g : String)
    (hg : fieldEq "Content-Type" g = false) :
    getHeader (setTypeOp r t) g = getHeader r g := by
  unfold setTypeOp
  cases h : getType t with
  | some mt => exact getHeader_setOp_ne' _ _ _ _ hg
  | none => exact getHeader_removeOp_ne _ _ _ (fieldEq_symm_false hg)

theorem setTypeOp_explicit (r : Responce) (t : String) :
    (setTypeOp r t).explicitStatus = r.explicitStatus := by
  unfold setTypeOp
  cases h : getType t with
  | some mt => exact (setOp_fields ..).2.2.2.1
  | none => exact (removeOp_fields ..).2.2.2.1

theorem getHeader_setBody_str_ne (req : IncMsg) (r : Responce) (s g : String)
    (hg1 : fieldEq "Content-Type" g = false)
    (hg2 : fieldEq "Content-Length" g = false) :
    getHeader (setBody req r (.str s)) g = getHeader r g := by
  unfold setBody
  simp only [isNullish, Bool.false_eq_true, if_false]
  rw [getHeader_setLength_ne _ _ _ hg2]
  split
  · split
    · rw [getHeader_setTypeOp_ne _ _ _ hg1, getHeader_statusAssignNoClear]
      exact getHeader_bodyUpdate r (.str s) g
    · rw [getHeader_statusAssignNoClear]
      exact getHeader_bodyUpdate r (.str s) g
  · split
    · rw [getHeader_setTypeOp_ne _ _ _ hg1]
      exact getHeader_bodyUpdate r (.str s) g
    · exact getHeader_bodyUpdate r (.str s) g

theorem body_setBody_str (req : IncMsg) (r : Responce) (s : String) :
    (setBody req r (.str s)).body = .str s := by
  unfold setBody
  simp only [isNullish, Bool.false_eq_true, if_false]
  rw [(setLength_fields ..).2.2]
  split
  · split
    · rw [(setTypeOp_fields ..).2.2, (statusAssignNoClear_fields ..).2.2]
    · rw [(statusAssignNoClear_fields ..).2.2]
  · split
    · rw [(setTypeOp_fields ..).2.2]
    · rfl

theorem statusCode_setBody_str (req : IncMsg) (r : Responce) (s : String)
    (hes : r.explicitStatus = true) :
    (setBody req r (.str s)).statusCode = r.statusCode := by
  unfold setBody
  simp only [isNullish, Bool.false_eq_true, if_false]
  rw [(setLength_fields ..).1]
  split
  next h =>
    rw [hes] at h
    exact absurd h (by decide)
  next h =>
    split
    · rw [(setTypeOp_fields ..).1]
    · rfl

/-- C8: `redirect("back", "/fallback")` resolves the target to the Referrer
header when present and to the alternative otherwise, stores it
(percent-encoded) in Location, forces status 302 unless the current status
is already redirect-family (on a response whose status was set explicitly),
and produces an HTML anchor body containing the escaped target when the
negotiator accepts HTML, a plain-text body otherwise. -/
theorem redirect_back_behaviour (ctx : Ctx) (req : IncMsg) (r : Responce)
    (hsent : r.headersSent = false) :
    (ctxGet ctx "Referrer" = "" →
      getHeader (redirect ctx req r "back" "/fallback") "Location"
        = some "/fallback") ∧
    (ctxGet ctx "Referrer" = "http://x/y" →
      getHeader (redirect ctx req r "back" "/fallback") "Location"
        = some "http://x/y") ∧
    (statusesRedirect r.statusCode = false →
      (redirect ctx req r "back" "/fallback").statusCode = 302) ∧
    (statusesRedirect r.statusCode = true → r.explicitStatus = true →
      (redirect ctx req r "back" "/fallback").statusCode = r.statusCode) ∧
    (ctxAcceptsHtml ctx = true →
      (redirect ctx req r "back" "/fallback").body
        = .str ("Redirecting to <a href=\"" ++
            escapeJs (if ctxGet ctx "Referrer" ≠ "" then ctxGet ctx "Referrer"
              else "/fallback") ++ "\">" ++
            escapeJs (if ctxGet ctx "Referrer" ≠ "" then ctxGet ctx "Referrer"
              else "/fallback") ++ "</a>.")) ∧
    (ctxAcceptsHtml ctx = false →
      (redirect ctx req r "back" "/fallback").body
        = .str ("Redirecting to " ++
            (if ctxGet ctx "Referrer" ≠ "" then ctxGet ctx "Referrer"
              else "/fallback") ++ ".")) := by
  have hback : ((("back" : String) == "back") = true) := by decide
  have halt : (("/fallback" : String) ≠ "") := by decide
  have hLocCT : fieldEq "Content-Type" "Location" = false := by decide
  have hLocCL : fieldEq "Content-Length" "Location" = false := by decide
  refine ⟨?_, ?_, ?_, ?_, ?_, ?_⟩
  · intro h
    unfold redirect
    rw [if_pos hback]
    simp only [h]
    rw [if_neg (show ¬(("" : String) ≠ "") from by simp), if_pos halt]
    have henc : encodeUrl "/fallback" = "/fallback" := by decide
    split
    · rw [getHeader_setBody_str_ne _ _ _ _ hLocCT hLocCL,
        getHeader_setTypeOp_ne _ _ _ hLocCT,
        getHeader_ite _ _ _ _ (getHeader_statusAssignNoClear ..),
        getHeader_setOp_self _ _ _ hsent, henc]
    · rw [getHeader_setBody_str_ne _ _ _ _ hLocCT hLocCL,
        getHeader_setTypeOp_ne _ _ _ hLocCT,
        getHeader_ite _ _ _ _ (getHeader_statusAssignNoClear ..),
        getHeader_setOp_self _ _ _ hsent, henc]
  · intro h
    unfold redirect
    rw [if_pos hback]
    simp only [h]
    rw [if_pos (show (("http://x/y" : String) ≠ "") from by decide)]
    have henc : encodeUrl "http://x/y" = "http://x/y" := by decide
    split
    · rw [getHeader_setBody_str_ne _ _ _ _ hLocCT hLocCL,
        getHeader_setTypeOp_ne _ _ _ hLocCT,
        getHeader_ite _ _ _ _ (getHeader_statusAssignNoClear ..),
        getHeader_setOp_self _ _ _ hsent, henc]
    · rw [getHeader_setBody_str_ne _ _ _ _ hLocCT hLocCL,
        getHeader_setTypeOp_ne _ _ _ hLocCT,
        getHeader_ite _ _ _ _ (getHeader_statusAssignNoClear ..),
        getHeader_setOp_self _ _ _ hsent, henc]
  · intro hns
    unfold redirect
    rw [if_pos hback]
    have hc : ∀ u : String,
        (!(statusesRedirect (setOp r "Location" u).statusCode)) = true := by
      intro u
      rw [(setOp_fields ..).1, hns]
      rfl
    have hR1sent : ∀ u : String, (setOp r "Location" u).headersSent = false := by
      intro u
      rw [(setOp_fields ..).2.1]
      exact hsent
    simp only [hc, if_true]
    have hes : ∀ u : String,
        (statusAssignNoClear req (setOp r "Location" u) 302).explicitStatus
          = true := by
      intro u
      rw [statusAssignNoClear_unsent _ _ _ (hR1sent u)]
      exact (statusAssignCore_fields ..).2.2.2.2.1
    have hco : ∀ u : String,
        (statusAssignNoClear req (setOp r "Location" u) 302).statusCode = 302 := by
      intro u
      rw [statusAssignNoClear_unsent _ _ _ (hR1sent u)]
      exact (statusAssignCore_fields ..).2.2.2.1
    split
    · rw [statusCode_setBody_str _ _ _ (by rw [setTypeOp_explicit]; exact hes _),
        (setTypeOp_fields ..).1, hco]
    · rw [statusCode_setBody_str _ _ _ (by rw [setTypeOp_explicit]; exact hes _),
        (setTypeOp_fields ..).1, hco]
  · intro hrs hes
    unfold redirect
    rw [if_pos hback]
    have hc : ∀ u : String,
        (!(statusesRedirect (setOp r "Location" u).statusCode)) = false := by
      intro u
      rw [(setOp_fields ..).1, hrs]
      rfl
    simp only [hc, Bool.false_eq_true, if_false]
    have hes' : ∀ u : String,
        (setOp r "Location" u).explicitStatus = true := by
      intro u
      rw [(setOp_fields ..).2.2.2.1]
      exact hes
    split
    · rw [statusCode_setBody_str _ _ _ (by rw [setTypeOp_explicit]; exact hes' _),
        (setTypeOp_fields ..).1, (setOp_fields ..).1]
    · rw [statusCode_setBody_str _ _ _ (by rw [setTypeOp_explicit]; exact hes' _),
        (setTypeOp_fields ..).1, (setOp_fields ..).1]
  · intro hhtml
    unfold redirect
    rw [if_pos hback, if_pos (show ctxAcceptsHtml ctx = true from hhtml)]
    rw [body_setBody_str]
    rw [if_pos halt]
  · intro hhtml
    unfold redirect
    rw [if_pos hback, if_neg (show ¬(ctxAcceptsHtml ctx = true) from by
      simp [hhtml])]
    rw [body_setBody_str]
    rw [if_pos halt]

/-- C8 witness: with Referrer `http://x/y` and an HTML-accepting negotiator
the redirect stores that Location, forces 302 and renders the anchor body
with the escaped target; with no Referrer and a non-HTML negotiator it
stores the fallback Location and renders the plain-text body. -/
theorem redirect_back_behaviour_witness :
    getHeader (redirect
      { request := { req := { headers := [("referer", "http://x/y")] } },
        acceptsHtml := true } plainReq { statusCode := 200 } "back" "/fallback")
      "Location" = some "http://x/y" ∧
    (redirect
      { request := { req := { headers := [("referer", "http://x/y")] } },
        acceptsHtml := true } plainReq { statusCode := 200 } "back" "/fallback"
      ).statusCode = 302 ∧
    (redirect
      { request := { req := { headers := [("referer", "http://x/y")] } },
        acceptsHtml := true } plainReq { statusCode := 200 } "back" "/fallback"
      ).body = .str "Redirecting to <a href=\"http%3A//x/y\">http%3A//x/y</a>." ∧
    getHeader (redirect { request := { req := {} }, acceptsHtml := false }
      plainReq { statusCode := 200 } "back" "/fallback") "Location"
      = some "/fallback" ∧
    (redirect { request := { req := {} }, acceptsHtml := false }
      plainReq { statusCode := 200 } "back" "/fallback").body
      = .str "Redirecting to /fallback." := by
  have h1 := redirect_back_behaviour
    { request := { req := { headers := [("referer", "http://x/y")] } },
      acceptsHtml := true } plainReq { statusCode := 200 } (by decide)
  have h2 := redirect_back_behaviour
    { request := { req := {} }, acceptsHtml := false } plainReq
    { statusCode := 200 } (by decide)
  refine ⟨?_, ?_, ?_, ?_, ?_⟩
  · exact h1.2.1 (by decide)
  · exact h1.2.2.1 (by decide)
  · rw [h1.2.2.2.2.1 (by decide)]
    decide
  · exact h2.1 (by decide)
  · rw [h2.2.2.2.2.2 (by decide)]
    decide

/-- C9: the `URL` getter never raises: parameterized by the external WHATWG
constructor (whose failure is an exception), the getter is a total function.
On first access with an empty memo it parses `origin + originalUrl` and
memoizes the parsed URL, or the empty placeholder when the constructor
throws; when a memo exists it is returned with the state untouched; and a
second access — even with a different parse function — returns the same
memoized object without re-attempting the parse. -/
theorem url_getter_memoized (f g : String → Except String UrlObj) (r : Request) :
    (r.memoizedURL = none →
      (∀ u, f (requestOrigin r ++ r.originalUrl) = .ok u →
        urlGet f r = (.url u, { r with memoizedURL := some (.url u) })) ∧
      (∀ e, f (requestOrigin r ++ r.originalUrl) = .error e →
        urlGet f r = (.placeholder, { r with memoizedURL := some .placeholder }))) ∧
    (∀ m, r.memoizedURL = some m → urlGet f r = (m, r)) ∧
    urlGet g (urlGet f r).2 = ((urlGet f r).1, (urlGet f r).2) := by
  refine ⟨?_, ?_, ?_⟩
  · intro hmem
    constructor
    · intro u hu
      unfold urlGet
      rw [hmem]
      simp only [hu]
    · intro e he
      unfold urlGet
      rw [hmem]
      simp only [he]
  · intro m hm
    unfold urlGet
    rw [hm]
  · cases hm : r.memoizedURL with
    | some m =>
      unfold urlGet
      rw [hm]
      simp [hm]
    | none =>
      unfold urlGet
      rw [hm]

/-- C9 witness: a throwing constructor memoizes the placeholder on a fresh
request; a succeeding constructor memoizes the parsed URL; a later access
through a different (even throwing) constructor returns the memo unchanged. -/
theorem url_getter_memoized_witness :
    urlGet (fun _ => Except.error "invalid URL") { req := {} }
      = (.placeholder, { req := {}, memoizedURL := some .placeholder }) ∧
    urlGet (fun s => Except.ok ⟨s⟩) { req := {} }
      = (.url ⟨"http://"⟩, { req := {}, memoizedURL := some (.url ⟨"http://"⟩) }) ∧
    urlGet (fun _ => Except.error "invalid URL")
      { req := {}, memoizedURL := some (.url ⟨"http://"⟩) }
      = (.url ⟨"http://"⟩, { req := {}, memoizedURL := some (.url ⟨"http://"⟩) }) :=
  ⟨((url_getter_memoized (fun _ => Except.error "invalid URL")
      (fun _ => Except.error "invalid URL") { req := {} }).1 rfl).2
      "invalid URL" rfl,
   ((url_getter_memoized (fun s => Except.ok ⟨s⟩)
      (fun s => Except.ok ⟨s⟩) { req := {} }).1 rfl).1 ⟨"http://"⟩ (by decide),
   (url_getter_memoized (fun _ => Except.error "invalid URL")
      (fun _ => Except.error "invalid URL")
      { req := {}, memoizedURL := some (.url ⟨"http://"⟩) }).2.1
      (.url ⟨"http://"⟩) rfl⟩

theorem setLength_noop_of_te (x : Responce) (n : Nat)
    (h : hasHeader x "Transfer-Encoding" = true) : setLength x n = x := by
  unfold setLength
  rw [h]
  rfl

/-- C10: while a Transfer-Encoding header is present, assigning `length` is
a no-op (the response is unchanged, no Content-Length appears), and in
particular assigning a string or buffer body leaves Content-Length absent
even though the body setter assigns `length`. -/
theorem transfer_encoding_length_noop (req : IncMsg) (r : Responce) (n : Nat)
    (s : String) (bs : List Nat)
    (hTE : hasHeader r "Transfer-Encoding" = true) :
    setLength r n = r ∧
    (hasHeader r "Content-Length" = false →
      hasHeader (setBody req r (.str s)) "Content-Length" = false ∧
      hasHeader (setBody req r (.buf bs)) "Content-Length" = false) := by
  have hCTTE : fieldEq "Content-Type" "Transfer-Encoding" = false := by decide
  have hCTCL : fieldEq "Content-Type" "Content-Length" = false := by decide
  refine ⟨setLength_noop_of_te r n hTE, ?_⟩
  intro hCL
  constructor
  · unfold setBody
    simp only [isNullish, Bool.false_eq_true, if_false]
    split
    · split
      · rw [setLength_noop_of_te _ _ (by
          rw [hasHeader, getHeader_setTypeOp_ne _ _ _ hCTTE,
            getHeader_statusAssignNoClear]
          exact hTE)]
        rw [hasHeader, getHeader_setTypeOp_ne _ _ _ hCTCL,
          getHeader_statusAssignNoClear]
        exact hCL
      · rw [setLength_noop_of_te _ _ (by
          rw [hasHeader, getHeader_statusAssignNoClear]
          exact hTE)]
        rw [hasHeader, getHeader_statusAssignNoClear]
        exact hCL
    · split
      · rw [setLength_noop_of_te _ _ (by
          rw [hasHeader, getHeader_setTypeOp_ne _ _ _ hCTTE]
          exact hTE)]
        rw [hasHeader, getHeader_setTypeOp_ne _ _ _ hCTCL]
        exact hCL
      · rw [setLength_noop_of_te { r with body := BodyVal.str s } _ hTE]
        exact hCL
  · unfold setBody
    simp only [isNullish, Bool.false_eq_true, if_false]
    split
    · split
      · rw [setLength_noop_of_te _ _ (by
          rw [hasHeader, getHeader_setTypeOp_ne _ _ _ hCTTE,
            getHeader_statusAssignNoClear]
          exact hTE)]
        rw [hasHeader, getHeader_setTypeOp_ne _ _ _ hCTCL,
          getHeader_statusAssignNoClear]
        exact hCL
      · rw [setLength_noop_of_te _ _ (by
          rw [hasHeader, getHeader_statusAssignNoClear]
          exact hTE)]
        rw [hasHeader, getHeader_statusAssignNoClear]
        exact hCL
    · split
      · rw [setLength_noop_of_te _ _ (by
          rw [hasHeader, getHeader_setTypeOp_ne _ _ _ hCTTE]
          exact hTE)]
        rw [hasHeader, getHeader_setTypeOp_ne _ _ _ hCTCL]
        exact hCL
      · rw [setLength_noop_of_te { r with body := BodyVal.buf bs } _ hTE]
        exact hCL

/-- C10 witness: a chunked response ignores a length assignment, and string
and buffer bodies leave Content-Length absent. -/
theorem transfer_encoding_length_noop_witness :
    setLength
      { statusCode := 200, headers := [("Transfer-Encoding", "chunked")],
        explicitStatus := true } 5
      = { statusCode := 200, headers := [("Transfer-Encoding", "chunked")],
          explicitStatus := true } ∧
    hasHeader (setBody plainReq
      { statusCode := 200, headers := [("Transfer-Encoding", "chunked")],
        explicitStatus := true } (.str "hello")) "Content-Length" = false ∧
    hasHeader (setBody plainReq
      { statusCode := 200, headers := [("Transfer-Encoding", "chunked")],
        explicitStatus := true } (.buf [1, 2, 3])) "Content-Length" = false := by
  have h := transfer_encoding_length_noop plainReq
    { statusCode := 200, headers := [("Transfer-Encoding", "chunked")],
      explicitStatus := true } 5 "hello" [1, 2, 3] (by decide)
  exact ⟨h.1, (h.2 (by decide)).1, (h.2 (by decide)).2⟩
